import Mathlib

/-!
Verification development for the `daemoniser` package
(`daemoniser/daemon.py`, `daemoniser/service.py`).

The Python code is shallowly embedded: pure fragments become Lean
functions; side-effecting methods become functions from an explicit
daemon state (plus oracles for the outcomes of OS calls such as
`os.kill` and the PID-file write) to a result, an updated state and a
trace of observable effects.  Machine-level details that no claim
depends on (fork internals, `setsid`, stream redirection) are folded
into single abstract effects.
-/

set_option autoImplicit false

namespace Daemoniser

/-! ## PID-file content parsing (`Daemon._validate`)

`_validate` reads the PID file, strips the content and feeds it to
Python's `int()`.  A `ValueError` is turned into a `DaemonError`.
-/

/-- The exception class `daemoniser.DaemonError` (daemon.py): carries a
message string. -/
structure DaemonError where
  msg : String
  deriving DecidableEq, Repr

/-- Characters removed by Python 2's `str.strip()` on byte strings:
ASCII whitespace. -/
def pyWhitespace (c : Char) : Bool :=
  c = ' ' || c = '\t' || c = '\n' || c = '\r' || c = '\x0b' || c = '\x0c'

/-- `s.strip()`: remove leading and trailing ASCII whitespace. -/
def pyStrip (s : String) : String :=
  ⟨((s.data.dropWhile pyWhitespace).reverse.dropWhile pyWhitespace).reverse⟩

/-- Decimal value of a nonempty all-digit character list; `none`
otherwise.  Helper for the `int()` embedding. -/
def pyDigitsVal (cs : List Char) : Option Nat :=
  if cs.isEmpty then none
  else if cs.all Char.isDigit then
    some (cs.foldl (fun a c => a * 10 + (c.toNat - 48)) 0)
  else none

/-- Python 2 `int(s)` on an already-stripped byte string: an optional
single sign followed by one or more ASCII digits; anything else raises
`ValueError`, modelled as `none`. -/
def pyIntOfString (s : String) : Option Int :=
  match s.data with
  | [] => none
  | c :: rest =>
    if c = '+' then (pyDigitsVal rest).map (fun n => (n : Int))
    else if c = '-' then (pyDigitsVal rest).map (fun n => -(n : Int))
    else (pyDigitsVal (c :: rest)).map (fun n => (n : Int))

/-- Spec-side predicate, written from the claim's words: the (trimmed)
text is purely a decimal integer numeral — an optional sign followed by
at least one decimal digit and nothing else. -/
def isDecimalIntegerText (s : String) : Bool :=
  match s.data with
  | [] => false
  | c :: rest =>
    if c = '+' || c = '-' then !rest.isEmpty && rest.all Char.isDigit
    else (c :: rest).all Char.isDigit

/-- `Daemon._validate`, restricted to the PID-reading step (daemon.py
lines 217-226): if the PID file exists, its content is stripped and
parsed with `int()`; a `ValueError` becomes
`DaemonError('Error reading PID file: ...')`.  If the file does not
exist the cached PID stays unset (`none`). -/
def validatePidfile (pidfileExists : Bool) (content : String) :
    Except DaemonError (Option Int) :=
  if pidfileExists then
    match pyIntOfString (pyStrip content) with
    | some n => .ok (some n)
    | none => .error ⟨"Error reading PID file"⟩
  else .ok none

/-! ## Descriptor cleanup inside `Daemon.daemonize` (daemon.py 365-382)

The Python code, with its exact loop nesting:

    filenos = []
    for handler in log.handlers:
        if (hasattr(handler, 'stream') and
           hasattr(handler.stream, 'fileno') and
           handler.stream.fileno() > 2):
            filenos.append(handler.stream.fileno())
        for fd in range(0, maxfd):
            try:
                if fd not in filenos:
                    os.close(fd)
            except OSError:
                pass

A handler is modelled as `Option Nat`: `some fd` when it has a stream
with a file descriptor number `fd`, `none` otherwise.  `closed` records
the descriptors successfully closed so far (a second `os.close` on the
same descriptor raises `OSError`, which the code ignores).
-/

structure FdCleanState where
  filenos : List Nat
  closed : List Nat
  deriving DecidableEq, Repr

/-- One iteration of the outer `for handler in log.handlers` loop:
append the handler's descriptor to `filenos` when it is a non-console
stream (fileno > 2), then run the inner close loop over
`range(0, maxfd)`. -/
def closeStep (maxfd : Nat) (st : FdCleanState) (handler : Option Nat) :
    FdCleanState :=
  let filenos :=
    match handler with
    | some fd => if 2 < fd then st.filenos ++ [fd] else st.filenos
    | none => st.filenos
  let newlyClosed :=
    (List.range maxfd).filter (fun fd => fd ∉ filenos ∧ fd ∉ st.closed)
  { filenos := filenos, closed := st.closed ++ newlyClosed }

/-- The set (as a list) of descriptors the cleanup step closes, for a
given logging-handler configuration and descriptor range bound. -/
def closedFds (handlers : List (Option Nat)) (maxfd : Nat) : List Nat :=
  (handlers.foldl (closeStep maxfd) ⟨[], []⟩).closed

/-- The exempt set the code intends (and its comment states): the
descriptors of non-console logging sinks. -/
def handlerFilenos (handlers : List (Option Nat)) : List Nat :=
  (handlers.foldl (closeStep 0) ⟨[], []⟩).filenos

/-! ## Daemon lifecycle state machine (`Daemon` methods)

State carried by a `Daemon` instance: the PID-file path, the cached PID
loaded at construction, and the inline-mode flag.  OS-call outcomes
(`os.kill` errno, an `IOError` while daemonizing/writing the PID file,
the liveness probe in `status`) are oracles passed as arguments.
Observable side effects are collected in a trace.
-/

/-- Observable effects of the lifecycle methods.  Log messages keep a
short tag of the source's message; `daemonizeEnv` folds together the
double fork, `setsid`, `chdir`, `umask`, descriptor cleanup and stream
redirection; `runBody` is the call `self._start(self.exit_event)`,
which hands the service body the cancellation event. -/
inductive Effect where
  | logDebug (m : String)
  | logInfo (m : String)
  | logWarn (m : String)
  | logError (m : String)
  | daemonizeEnv
  | fsWrite (path : String)
  | fsRemove (path : String)
  | registerAtexit
  | runBody
  | kill (pid : Int) (sig : Nat)
  | sleep (secs : Nat)
  deriving DecidableEq, Repr

/-- `signal.SIGTERM` on Linux. -/
def SIGTERM : Nat := 15

/-- In-memory state of a `Daemon` instance. -/
structure DState where
  pidfile : Option String
  pid : Option Int
  inline : Bool
  deriving DecidableEq, Repr

/-- `Daemon._start_daemon` (daemon.py 264-312).  Raises `DaemonError`
when no PID file is defined; warns and returns `False` when a cached
PID is present; otherwise daemonizes (which writes the child PID to the
PID file and registers the atexit cleanup) and runs the service body.
`ioErr` is the oracle for an `IOError` raised while writing the PID
file, which the method turns into a `DaemonError`. -/
def startDaemon (st : DState) (ioErr : Bool) :
    Except DaemonError (Bool × DState × List Effect) :=
  match st.pidfile with
  | none => .error ⟨"PID file has not been defined"⟩
  | some f =>
    match st.pid with
    | some _ =>
      .ok (false, st,
        [.logDebug "checking daemon status",
         .logWarn "PID file exists.  Daemon may be running?"])
    | none =>
      if ioErr then .error ⟨"Cannot write to PID file"⟩
      else
        .ok (true, st,
          [.logDebug "checking daemon status",
           .logDebug "No PID file -- creating handle",
           .logDebug "starting daemon",
           .daemonizeEnv, .fsWrite f, .registerAtexit, .runBody])

/-- `Daemon.start` (daemon.py 228-262): inline mode calls
`self._start(self.exit_event)` directly and leaves `start_status` at
its initial `True`; daemon mode delegates to `_start_daemon`. -/
def start (st : DState) (ioErr : Bool) :
    Except DaemonError (Bool × DState × List Effect) :=
  if st.inline then .ok (true, st, [.runBody])
  else startDaemon st ioErr

/-- `Daemon.stop` (daemon.py 397-436).  `killErr` is the oracle for
`os.kill(pid, SIGTERM)`: `none` means delivered, `some errno` means
`OSError` with that errno (3 = ESRCH, "no such process").  Python's
truthiness on `self.pid` sends `0` to the final warning branch. -/
def stop (st : DState) (killErr : Option Nat) :
    Bool × DState × List Effect :=
  match st.pid with
  | none => (false, st, [.logWarn "Stopping process but unable to find PID"])
  | some p =>
    if p = 0 then
      (false, st, [.logWarn "PID file exists with invalid value"])
    else
      match killErr with
      | none =>
        (true, { st with pid := none },
         [.logDebug "Stopping daemon process", .kill p SIGTERM])
      | some e =>
        (false, st,
         [.logDebug "Stopping daemon process", .kill p SIGTERM,
          .logError "PID stop"] ++
         (if e = 3 then
            match st.pidfile with
            | some f => [.logWarn "Removing PID file", .fsRemove f]
            | none => []
          else []))

/-- `Daemon.status` (daemon.py 466-484): probe liveness with
`os.kill(pid, 0)`; any `OSError` means not alive.  `probeOk` is the
oracle for that probe. -/
def status (st : DState) (probeOk : Bool) : Bool :=
  match st.pid with
  | none => false
  | some _ => probeOk

/-- `Daemon.restart` (daemon.py 438-458): two info logs, `stop()`,
`time.sleep(2)`, another info log, `start()`.  Both return values are
discarded; the method returns `None` (here: just the final state and
the trace). -/
def restart (st : DState) (killErr : Option Nat) (ioErr : Bool) :
    Except DaemonError (DState × List Effect) :=
  let s := stop st killErr
  match start s.2.1 ioErr with
  | .error e => .error e
  | .ok (_, st2, eff2) =>
    .ok (st2,
      [.logInfo "attempting restart", .logInfo "stopping"] ++ s.2.2 ++
      [.sleep 2, .logInfo "attempting restart"] ++ eff2)

/-! ## `Service.check_args` (service.py 191-246)

`parser.error` prints a usage message and raises `SystemExit(2)`;
modelled as the `usageError` outcome.  Option values: `store_true`
options default to `None` and become `True` when supplied, so a `Bool`
per option suffices.
-/

/-- Outcome of `Service.check_args`: either the process exits with a
usage message and non-zero status (`optparse`'s `parser.error`), or the
controller state is set. -/
inductive ArgsResult where
  | usageError (m : String)
  | ok (cmd : String) (dry batch : Bool)
  deriving DecidableEq, Repr

/-- `Service.check_args`.  `command` is the predefined-command kwarg;
when it is `none` the single positional argument is validated against
`supported_commands` and the dry/batch modifiers.  `self.dry` and
`self.batch` are only assigned when the resolved command is `start`
(class defaults are `False`). -/
def check_args (supported : List String) (args : List String)
    (dryOpt batchOpt : Bool) (command : Option String) : ArgsResult :=
  match command with
  | some c =>
    .ok c (if c = "start" then dryOpt else false)
      (if c = "start" then batchOpt else false)
  | none =>
    match args with
    | [c] =>
      if ¬ supported.contains c then
        .usageError "command not supported"
      else if c ≠ "start" ∧ (dryOpt ∨ batchOpt) then
        .usageError "invalid option(s) with command"
      else
        .ok c (if c = "start" then dryOpt else false)
          (if c = "start" then batchOpt else false)
    | _ => .usageError "incorrect number of arguments"

/-! ## Theorems -/

/-- Text that is not a decimal-integer numeral is exactly the text
Python's `int()` rejects with `ValueError`. -/
theorem pyInt_none_of_not_decimal (s : String)
    (h : isDecimalIntegerText s = false) : pyIntOfString s = none := by
  obtain ⟨cs⟩ := s
  cases cs with
  | nil => rfl
  | cons c rest =>
    have h2 : (if c = '+' || c = '-' then !rest.isEmpty && rest.all Char.isDigit
        else (c :: rest).all Char.isDigit) = false := h
    clear h
    show (if c = '+' then (pyDigitsVal rest).map (fun n => (n : Int))
        else if c = '-' then (pyDigitsVal rest).map (fun n => -(n : Int))
        else (pyDigitsVal (c :: rest)).map (fun n => (n : Int))) = none
    by_cases hp : c = '+'
    · rw [hp] at h2
      rw [if_pos hp]
      have h3 : (!rest.isEmpty && rest.all Char.isDigit) = false := by
        simpa using h2
      cases he : rest.isEmpty <;> cases ha : rest.all Char.isDigit <;>
        simp_all [pyDigitsVal]
    · by_cases hm : c = '-'
      · rw [hm] at h2
        rw [if_neg hp, if_pos hm]
        have h3 : (!rest.isEmpty && rest.all Char.isDigit) = false := by
          simpa using h2
        cases he : rest.isEmpty <;> cases ha : rest.all Char.isDigit <;>
          simp_all [pyDigitsVal]
      · rw [if_neg hp, if_neg hm]
        have h3 : (c :: rest).all Char.isDigit = false := by
          simpa [hp, hm] using h2
        simp [pyDigitsVal, h3]

/-- C2: a PID file whose trimmed content is not purely a decimal
integer makes construction (`Daemon._validate`) fail with
`DaemonError`; it is never treated as "no daemon running" (the result
is an error, not `ok none`). -/
theorem validate_rejects_nonInteger_pidfile (content : String)
    (h : isDecimalIntegerText (pyStrip content) = false) :
    validatePidfile true content = .error ⟨"Error reading PID file"⟩ := by
  unfold validatePidfile
  rw [pyInt_none_of_not_decimal _ h]
  rfl

/-- Witness for C2 at the concrete content `" not-a-pid \n"`. -/
theorem validate_rejects_nonInteger_pidfile_witness :
    isDecimalIntegerText (pyStrip " not-a-pid \n") = false ∧
    validatePidfile true " not-a-pid \n" =
      .error ⟨"Error reading PID file"⟩ :=
  ⟨by decide, validate_rejects_nonInteger_pidfile " not-a-pid \n" (by decide)⟩

/-- C1 (code bug): the claim says every configuration of logging
handlers, including an empty list, has the cleanup step close every
scanned descriptor outside the exempt set.  The code nests the close
loop inside the per-handler loop, so with no handlers nothing at all is
closed (`closedFds [] 3 = []`, yet descriptors 0, 1, 2 should have been
closed), and with two non-console handlers the second handler's
descriptor 7 — exempt, being a handler fileno — is closed during the
first handler's pass. -/
theorem daemonize_fd_cleanup_bug :
    closedFds [] 3 = [] ∧
    7 ∈ handlerFilenos [some 5, some 7] ∧
    7 ∈ closedFds [some 5, some 7] 8 := by decide

/-- C3: a daemon-mode `start()` on an instance whose cached PID is set
only logs (debug plus the warning), performs no daemonize and never
invokes the service body, and returns `False`. -/
theorem start_daemon_with_cached_pid_refuses (st : DState) (ioErr : Bool)
    (p : Int) (f : String)
    (hinline : st.inline = false) (hpid : st.pid = some p)
    (hfile : st.pidfile = some f) :
    start st ioErr =
      .ok (false, st,
        [Effect.logDebug "checking daemon status",
         Effect.logWarn "PID file exists.  Daemon may be running?"]) ∧
    Effect.daemonizeEnv ∉
      ([Effect.logDebug "checking daemon status",
        Effect.logWarn "PID file exists.  Daemon may be running?"] :
          List Effect) ∧
    Effect.runBody ∉
      ([Effect.logDebug "checking daemon status",
        Effect.logWarn "PID file exists.  Daemon may be running?"] :
          List Effect) := by
  refine ⟨?_, by decide, by decide⟩
  simp [start, startDaemon, hinline, hpid, hfile]

/-- Witness for C3 at a concrete state with cached PID 2967. -/
theorem start_daemon_with_cached_pid_refuses_witness :
    start ⟨some "/var/tmp/pidfile", some 2967, false⟩ false =
      .ok (false, ⟨some "/var/tmp/pidfile", some 2967, false⟩,
        [Effect.logDebug "checking daemon status",
         Effect.logWarn "PID file exists.  Daemon may be running?"]) :=
  (start_daemon_with_cached_pid_refuses
    ⟨some "/var/tmp/pidfile", some 2967, false⟩ false 2967 "/var/tmp/pidfile"
    rfl rfl rfl).1

/-- C4: with a cached PID, `stop()` whose signal delivery fails with
errno 3 (ESRCH, "no such process") removes the PID file and returns
`False`; any other delivery errno returns `False` without touching the
PID file. -/
theorem stop_errno_classification (st : DState) (p : Int) (f : String)
    (hpid : st.pid = some p) (hp : p ≠ 0) (hfile : st.pidfile = some f) :
    stop st (some 3) =
      (false, st,
       [Effect.logDebug "Stopping daemon process", Effect.kill p SIGTERM,
        Effect.logError "PID stop", Effect.logWarn "Removing PID file",
        Effect.fsRemove f]) ∧
    ∀ e : Nat, e ≠ 3 →
      stop st (some e) =
        (false, st,
         [Effect.logDebug "Stopping daemon process", Effect.kill p SIGTERM,
          Effect.logError "PID stop"]) := by
  constructor
  · simp [stop, hpid, hp, hfile]
  · intro e he
    simp [stop, hpid, hp, he]

/-- Witness for C4 at PID 4242, PID file `/tmp/svc.pid`, other errno 13
(EACCES). -/
theorem stop_errno_classification_witness :
    stop ⟨some "/tmp/svc.pid", some 4242, false⟩ (some 3) =
      (false, ⟨some "/tmp/svc.pid", some 4242, false⟩,
       [Effect.logDebug "Stopping daemon process", Effect.kill 4242 SIGTERM,
        Effect.logError "PID stop", Effect.logWarn "Removing PID file",
        Effect.fsRemove "/tmp/svc.pid"]) ∧
    stop ⟨some "/tmp/svc.pid", some 4242, false⟩ (some 13) =
      (false, ⟨some "/tmp/svc.pid", some 4242, false⟩,
       [Effect.logDebug "Stopping daemon process", Effect.kill 4242 SIGTERM,
        Effect.logError "PID stop"]) :=
  ⟨(stop_errno_classification ⟨some "/tmp/svc.pid", some 4242, false⟩ 4242
      "/tmp/svc.pid" rfl (by decide) rfl).1,
   (stop_errno_classification ⟨some "/tmp/svc.pid", some 4242, false⟩ 4242
      "/tmp/svc.pid" rfl (by decide) rfl).2 13 (by decide)⟩

/-- C5: `restart()` performs exactly stop, a fixed sleep of 2 time
units, then start (with its two leading info logs and one between);
whatever booleans `stop` and `start` produced are both discarded — the
returned value carries only the final state and the trace, never a
success flag. -/
theorem restart_sequence (st : DState) (killErr : Option Nat) (ioErr : Bool)
    (b : Bool) (st2 : DState) (eff2 : List Effect)
    (h : start (stop st killErr).2.1 ioErr = .ok (b, st2, eff2)) :
    restart st killErr ioErr =
      .ok (st2,
        [Effect.logInfo "attempting restart", Effect.logInfo "stopping"] ++
        (stop st killErr).2.2 ++
        [Effect.sleep 2, Effect.logInfo "attempting restart"] ++ eff2) := by
  simp [restart, h]

/-- Witness for C5: idle daemon state, delivery and PID-file write both
succeed. -/
theorem restart_sequence_witness :
    restart ⟨some "/tmp/svc.pid", none, false⟩ none false =
      .ok (⟨some "/tmp/svc.pid", none, false⟩,
        [Effect.logInfo "attempting restart", Effect.logInfo "stopping"] ++
        (stop ⟨some "/tmp/svc.pid", none, false⟩ none).2.2 ++
        [Effect.sleep 2, Effect.logInfo "attempting restart"] ++
        [Effect.logDebug "checking daemon status",
         Effect.logDebug "No PID file -- creating handle",
         Effect.logDebug "starting daemon", Effect.daemonizeEnv,
         Effect.fsWrite "/tmp/svc.pid", Effect.registerAtexit,
         Effect.runBody]) :=
  restart_sequence ⟨some "/tmp/svc.pid", none, false⟩ none false true
    ⟨some "/tmp/svc.pid", none, false⟩ _ rfl

/-- C6: inline-mode `start()` only runs the service body (handing it
the exit event), leaves the state — in particular the cached PID —
unchanged, writes or removes no file, and with no cached PID `status()`
reports idle both before and after (the state is identical). -/
theorem inline_start_transparent (st : DState) (ioErr : Bool)
    (probeOk : Bool) (hinline : st.inline = true) :
    start st ioErr = .ok (true, st, [Effect.runBody]) ∧
    (∀ q : String,
      Effect.fsWrite q ∉ ([Effect.runBody] : List Effect) ∧
      Effect.fsRemove q ∉ ([Effect.runBody] : List Effect)) ∧
    (st.pid = none → status st probeOk = false) := by
  refine ⟨by simp [start, hinline], by simp, ?_⟩
  intro h
  simp [status, h]

/-- Witness for C6: inline instance with no cached PID. -/
theorem inline_start_transparent_witness :
    start ⟨some "/tmp/svc.pid", none, true⟩ false =
      .ok (true, ⟨some "/tmp/svc.pid", none, true⟩, [Effect.runBody]) ∧
    status ⟨some "/tmp/svc.pid", none, true⟩ true = false :=
  ⟨(inline_start_transparent ⟨some "/tmp/svc.pid", none, true⟩ false true
      rfl).1,
   (inline_start_transparent ⟨some "/tmp/svc.pid", none, true⟩ false true
      rfl).2.2 rfl⟩

/-- C7: `stop()` with an unset cached PID only logs a warning, returns
`False`, and its trace contains no filesystem write or removal. -/
theorem stop_without_pid_noop (st : DState) (killErr : Option Nat)
    (h : st.pid = none) :
    stop st killErr =
      (false, st,
       [Effect.logWarn "Stopping process but unable to find PID"]) ∧
    ∀ q : String,
      Effect.fsWrite q ∉
        ([Effect.logWarn "Stopping process but unable to find PID"] :
          List Effect) ∧
      Effect.fsRemove q ∉
        ([Effect.logWarn "Stopping process but unable to find PID"] :
          List Effect) := by
  exact ⟨by simp [stop, h], by simp⟩

/-- Witness for C7 at a concrete state with no cached PID. -/
theorem stop_without_pid_noop_witness :
    stop ⟨some "/tmp/svc.pid", none, false⟩ none =
      (false, ⟨some "/tmp/svc.pid", none, false⟩,
       [Effect.logWarn "Stopping process but unable to find PID"]) :=
  (stop_without_pid_noop ⟨some "/tmp/svc.pid", none, false⟩ none rfl).1

/-- C8: when the command comes from the command line (no predefined
command), a dry-run or batch modifier together with any command other
than `start` makes `check_args` end in `parser.error` — a usage message
and a non-zero-status process exit. -/
theorem check_args_rejects_modifiers (supported : List String) (c : String)
    (d b : Bool) (hc : c ≠ "start") (hdb : d = true ∨ b = true) :
    ∃ m, check_args supported [c] d b none = ArgsResult.usageError m := by
  have hred : check_args supported [c] d b none =
      (if ¬ supported.contains c then
        ArgsResult.usageError "command not supported"
       else if c ≠ "start" ∧ (d = true ∨ b = true) then
        ArgsResult.usageError "invalid option(s) with command"
       else
        ArgsResult.ok c (if c = "start" then d else false)
          (if c = "start" then b else false)) := rfl
  rw [hred]
  by_cases hs : supported.contains c
  · refine ⟨"invalid option(s) with command", ?_⟩
    rw [if_neg (not_not_intro hs), if_pos ⟨hc, hdb⟩]
  · exact ⟨"command not supported", by rw [if_pos hs]⟩

/-- Witness for C8: `stop` with the dry-run modifier. -/
theorem check_args_rejects_modifiers_witness :
    ∃ m, check_args ["start", "stop", "status"] ["stop"] true false none =
      ArgsResult.usageError m :=
  check_args_rejects_modifiers ["start", "stop", "status"] "stop" true false
    (by decide) (Or.inl rfl)

/-- C9: after a `stop()` whose delivery failed with errno 3, the PID
file has been removed but the cached PID still holds the stale value,
so `status()` on the resulting state still probes that PID and a second
`stop()` still signals it. -/
theorem stale_pid_retained_after_selfheal (st : DState) (p : Int)
    (f : String) (ke2 : Option Nat) (probeOk : Bool)
    (hpid : st.pid = some p) (hp : p ≠ 0) (hfile : st.pidfile = some f) :
    (stop st (some 3)).2.1.pid = some p ∧
    Effect.fsRemove f ∈ (stop st (some 3)).2.2 ∧
    status (stop st (some 3)).2.1 probeOk = probeOk ∧
    Effect.kill p SIGTERM ∈ (stop (stop st (some 3)).2.1 ke2).2.2 := by
  have h1 : (stop st (some 3)).2.1 = st := by
    simp [stop, hpid, hp, hfile]
  refine ⟨by rw [h1]; exact hpid, ?_, ?_, ?_⟩
  · simp [stop, hpid, hp, hfile]
  · rw [h1]
    simp [status, hpid]
  · rw [h1]
    cases ke2 with
    | none => simp [stop, hpid, hp]
    | some e => by_cases he : e = 3 <;> simp [stop, hpid, hp, he, hfile]

/-- Witness for C9 at PID 4242, a second stop whose delivery fails with
errno 3 again. -/
theorem stale_pid_retained_after_selfheal_witness :
    (stop ⟨some "/tmp/svc.pid", some 4242, false⟩ (some 3)).2.1.pid =
      some 4242 ∧
    Effect.fsRemove "/tmp/svc.pid" ∈
      (stop ⟨some "/tmp/svc.pid", some 4242, false⟩ (some 3)).2.2 ∧
    status (stop ⟨some "/tmp/svc.pid", some 4242, false⟩ (some 3)).2.1
      true = true ∧
    Effect.kill 4242 SIGTERM ∈
      (stop (stop ⟨some "/tmp/svc.pid", some 4242, false⟩ (some 3)).2.1
        (some 3)).2.2 :=
  stale_pid_retained_after_selfheal ⟨some "/tmp/svc.pid", some 4242, false⟩
    4242 "/tmp/svc.pid" (some 3) true rfl (by decide) rfl

/-- C10: inline-mode `start()` returns `True` unconditionally once the
body returns; a `False` result can only come from the daemon-mode
path. -/
theorem inline_start_always_true (st : DState) (ioErr : Bool) :
    (st.inline = true → start st ioErr = .ok (true, st, [Effect.runBody])) ∧
    (∀ b st2 eff, start st ioErr = .ok (b, st2, eff) → b = false →
      st.inline = false) := by
  constructor
  · intro h
    simp [start, h]
  · intro b st2 eff hok hb
    cases hi : st.inline
    · rfl
    · exfalso
      rw [hb] at hok
      simp [start, hi] at hok

/-- Witness for C10: inline instance returns `True`. -/
theorem inline_start_always_true_witness :
    start ⟨none, none, true⟩ false =
      .ok (true, ⟨none, none, true⟩, [Effect.runBody]) :=
  (inline_start_always_true ⟨none, none, true⟩ false).1 rfl

end Daemoniser
